import Mathlib

/-!
Shallow embedding of the quincy configuration-resolution and secure-transport
derivation slice (src/src/config.rs and src/src/utils.rs), with proofs about it.

Conventions of the embedding:
- Machine integers are Nat with explicit reduction modulo 2^32 (u32) and
  2^16 (u16) at the exact points where the source performs arithmetic at those
  widths; u32/u16 arithmetic is modelled with wraparound semantics.
- Fallible operations return Except.
- External collaborators (filesystem, certificate loading, the TLS builders,
  the OS socket layer) are modelled as explicit environments of fallible
  functions, mirroring the call sites of the source.
-/

namespace Quincy

/-- Returns true exactly when an Except value is an error. -/
def isErr {ε α : Type} : Except ε α → Bool
  | Except.error _ => true
  | Except.ok _ => false

/-- The warning log attached to a successful result; empty for errors. -/
def logsOf {ε α : Type} : Except ε (α × List String) → List String
  | Except.ok p => p.2
  | Except.error _ => []

/-- 2^32, the modulus of Rust u32 arithmetic. -/
def U32_MOD : Nat := 4294967296

/-- 2^16, the modulus of Rust u16 arithmetic. -/
def U16_MOD : Nat := 65536

/-- Rust u32 multiplication (wraparound semantics). -/
def u32_mul (a b : Nat) : Nat := a * b % U32_MOD

/-! ## Binary message codec (src/src/utils.rs, encode_message / decode_message) -/

/-- Modelled from the spec: the structured control messages serialized by the
codec. The protocol module defining them is not part of this source slice; the
spec describes them only as structured messages encoded with one process-wide
fixed binary policy. A representative message algebra: a close marker and a
tagged byte-payload message. -/
inductive Message where
  | close : Message
  | data (payload : List Nat) : Message
deriving DecidableEq

/-- Error type of the binary codec (bincode EncodeError / DecodeError). -/
inductive CodecError where
  | unexpectedEnd : CodecError
  | invalidTag : CodecError
deriving DecidableEq

/-- A number encoded as four little-endian bytes (fixed-width policy). -/
def natToLe4 (n : Nat) : List Nat :=
  [n % 256, n / 256 % 256, n / 65536 % 256, n / 16777216 % 256]

/-- Modelled from the spec: the process-wide binary-encoding policy applied to
a message (fixed integer width and endianness, no versioning field): one tag
byte, and for the payload-carrying message a 4-byte length followed by the
payload bytes. -/
def serializeMessage : Message → List Nat
  | Message.close => [0]
  | Message.data payload => 1 :: (natToLe4 payload.length ++ payload.map (fun b => b % 256))

/-- The inverse of the binary policy: decodes one message from the front of a
byte buffer, returning it together with the count of bytes consumed, or an
error on truncated or unrecognized input. -/
def deserializeMessage (bs : List Nat) : Except CodecError (Message × Nat) :=
  match bs with
  | [] => Except.error CodecError.unexpectedEnd
  | 0 :: _ => Except.ok (Message.close, 1)
  | 1 :: rest =>
    match rest with
    | b0 :: b1 :: b2 :: b3 :: tail =>
      if b0 + 256 * b1 + 65536 * b2 + 16777216 * b3 ≤ tail.length then
        Except.ok (Message.data (tail.take (b0 + 256 * b1 + 65536 * b2 + 16777216 * b3)),
                   5 + (b0 + 256 * b1 + 65536 * b2 + 16777216 * b3))
      else Except.error CodecError.unexpectedEnd
    | _ => Except.error CodecError.unexpectedEnd
  | _ :: _ => Except.error CodecError.invalidTag

/-- Modelled from the spec: the fixed buffer capacity constant
(BINCODE_BUFFER_SIZE lives in the constants module, which is not part of this
source slice). Its concrete value does not affect any claim; a representative
value is used. -/
def BINCODE_BUFFER_SIZE : Nat := 1024

/-- A bytes::BytesMut value: an initialized byte region (Rust len = bytes.length)
plus a reserve capacity. BytesMut::with_capacity allocates capacity but leaves
the buffer EMPTY, and dereferencing a BytesMut yields a slice of its
initialized region only. -/
structure BytesMut where
  bytes : List Nat
  capacity : Nat
deriving DecidableEq

/-- BytesMut::with_capacity: empty contents, the given capacity. -/
def BytesMut.withCapacity (c : Nat) : BytesMut := { bytes := [], capacity := c }

/-- The slice obtained from a BytesMut by deref coercion: its initialized
region (length = Rust len, not capacity). -/
def BytesMut.derefSlice (b : BytesMut) : List Nat := b.bytes

/-- bincode::encode_into_slice: serializes the value into the destination
slice, failing with UnexpectedEnd when the slice is too short; on success
returns the updated slice contents and the number of bytes written. -/
def encodeIntoSlice (m : Message) (dst : List Nat) : Except CodecError (List Nat × Nat) :=
  if (serializeMessage m).length ≤ dst.length then
    Except.ok (serializeMessage m ++ dst.drop (serializeMessage m).length, (serializeMessage m).length)
  else
    Except.error CodecError.unexpectedEnd

/-- encode_message from src/src/utils.rs: allocates a BytesMut with capacity
BINCODE_BUFFER_SIZE and passes it (by mutable deref, i.e. as its
initialized-region slice) to bincode::encode_into_slice, then returns the
buffer frozen at its Rust len. -/
def encode_message (m : Message) : Except CodecError (List Nat) :=
  match encodeIntoSlice m (BytesMut.withCapacity BINCODE_BUFFER_SIZE).derefSlice with
  | Except.error e => Except.error e
  | Except.ok written => Except.ok written.1

/-- decode_message from src/src/utils.rs: bincode::decode_from_slice, with the
consumed-bytes count discarded. -/
def decode_message (data : List Nat) : Except CodecError Message :=
  match deserializeMessage data with
  | Except.ok res => Except.ok res.1
  | Except.error e => Except.error e

/-! ## Configuration model (src/src/config.rs) -/

/-- Logging configuration. -/
structure LogConfig where
  level : String
deriving DecidableEq

/-- Miscellaneous connection configuration (mtu: u32; buffer sizes: u64). -/
structure ConnectionConfig where
  mtu : Nat
  send_buffer_size : Nat
  recv_buffer_size : Nat
deriving DecidableEq

/-- Configuration of one server tunnel. Paths are modelled as strings and
IPv4 addresses as numbers (their structure is irrelevant to the claims). -/
structure TunnelConfig where
  name : String
  certificate_file : String
  certificate_key_file : String
  bind_address : Nat
  bind_port : Nat
  address_tunnel : Nat
  address_mask : Nat
  users_file : String
  auth_timeout : Nat
deriving DecidableEq

/-- Client authentication configuration. -/
structure ClientAuthenticationConfig where
  username : String
  password : String
  trusted_certificates : List String
  auth_interval : Nat
deriving DecidableEq

/-- Client configuration. -/
structure ClientConfig where
  connection_string : String
  authentication : ClientAuthenticationConfig
  connection : ConnectionConfig
  log : LogConfig
deriving DecidableEq

/-- Server configuration. The tunnel map is modelled as an association list
keyed by tunnel name (lookup finds the first entry with the key; entries are
only ever inserted at absent keys, so this models a hash map faithfully). -/
structure ServerConfig where
  tunnel_path : Option String
  tunnels : List (String × TunnelConfig)
  connection : ConnectionConfig
  log : LogConfig
deriving DecidableEq

/-- Serde default for the log level. -/
def default_log_level : String := "info"

/-- Serde default for the tunnel bind address (0.0.0.0). -/
def default_bind_address : Nat := 0

/-- Serde default for the tunnel bind port. -/
def default_bind_port : Nat := 55555

/-- Serde default for the socket buffer sizes. -/
def default_buffer_size : Nat := 2097152

/-- Serde default for auth_timeout / auth_interval. -/
def default_auth_timeout : Nat := 120

/-- Errors of base configuration resolution (figment extraction). -/
inductive ConfigError where
  | missingField (field : String)
  | malformed (msg : String)
deriving DecidableEq

/-- A partially specified source for a ConnectionConfig, as produced by the
layered file/environment provider before deserialization: each field either
present or absent. -/
structure ConnectionConfigSource where
  mtu : Option Nat
  send_buffer_size : Option Nat
  recv_buffer_size : Option Nat
deriving DecidableEq

/-- Deserialization of a ConnectionConfig from a layered source, following the
serde attributes on the struct: mtu has no default and is required;
send_buffer_size and recv_buffer_size fall back to default_buffer_size. -/
def resolveConnectionConfig (src : ConnectionConfigSource) : Except ConfigError ConnectionConfig :=
  match src.mtu with
  | none => Except.error (ConfigError.missingField "mtu")
  | some m =>
    Except.ok { mtu := m,
                send_buffer_size := src.send_buffer_size.getD default_buffer_size,
                recv_buffer_size := src.recv_buffer_size.getD default_buffer_size }

/-! ## Tunnel-directory merge (ServerConfig::init, src/src/config.rs lines 133-165) -/

/-- Lookup in the tunnel map (HashMap::get / Entry inspection). -/
def mapLookup : List (String × TunnelConfig) → String → Option TunnelConfig
  | [], _ => none
  | e :: rest, k => if e.1 = k then some e.2 else mapLookup rest k

/-- The duplicate-name warning emitted by the merge loop. -/
def duplicateWarning (name : String) : String :=
  "Tunnel with the name " ++ name ++ " already exists"

/-- The merge loop of ServerConfig::init: each discovered tunnel is inserted at
its name if that key is vacant; if the key is occupied a warning is recorded
and the discovered entry is dropped. Returns the final map and the warnings in
processing order. -/
def mergeTunnels : List (String × TunnelConfig) → List TunnelConfig → List (String × TunnelConfig) × List String
  | m, [] => (m, [])
  | m, t :: rest =>
    match mapLookup m t.name with
    | some _ => ((mergeTunnels m rest).1, duplicateWarning t.name :: (mergeTunnels m rest).2)
    | none => mergeTunnels (m ++ [(t.name, t)]) rest

/-- The first tunnel in a discovery list carrying a given name, if any (used
to state the first-registration-wins property). -/
def firstNamed : List TunnelConfig → String → Option TunnelConfig
  | [], _ => none
  | t :: rest, k => if t.name = k then some t else firstNamed rest k

/-- Left-biased choice on options. -/
def optOr : Option TunnelConfig → Option TunnelConfig → Option TunnelConfig
  | some v, _ => some v
  | none, b => b

/-- The filesystem collaborator of ServerConfig::init: directory test,
directory listing (the entries an iteration actually yields; per-entry
iterator errors are dropped by the flatten in the source), and resolution of
one tunnel configuration file (TunnelConfig::from_path). -/
structure FsEnv where
  isDir : String → Bool
  readDir : String → Except String (List String)
  tunnelFromPath : String → Except ConfigError TunnelConfig

/-- Errors of the full server-config load: a base-resolution failure or a
propagated io error. -/
inductive LoadError where
  | config (e : ConfigError)
  | io (msg : String)
deriving DecidableEq

/-- ServerConfig::init: takes the result of base resolution
(figment.extract, here an input already settled to ok or error) and performs
tunnel-directory discovery and merge. Returns the resolved configuration
together with the warnings recorded. Note the directory listing is consumed
with the question-mark operator in the source, so its failure propagates. -/
def serverConfigInit (env : FsEnv) (extracted : Except ConfigError ServerConfig) :
    Except LoadError (ServerConfig × List String) :=
  match extracted with
  | Except.error e => Except.error (LoadError.config e)
  | Except.ok config =>
    match config.tunnel_path with
    | none =>
      Except.ok ({ config with tunnels := (mergeTunnels config.tunnels []).1 },
                 (mergeTunnels config.tunnels []).2)
    | some tunnel_path =>
      if env.isDir tunnel_path then
        match env.readDir tunnel_path with
        | Except.error e => Except.error (LoadError.io e)
        | Except.ok entries =>
          Except.ok
            ({ config with tunnels :=
                (mergeTunnels config.tunnels
                  (entries.filterMap (fun f => (env.tunnelFromPath f).toOption))).1 },
             (mergeTunnels config.tunnels
               (entries.filterMap (fun f => (env.tunnelFromPath f).toOption))).2)
      else
        Except.ok ({ config with tunnels := (mergeTunnels config.tunnels []).1 },
                   ("Failed to load tunnel configuration files from " ++ tunnel_path ++
                     " - the folder does not exist") :: (mergeTunnels config.tunnels []).2)

/-! ## Secure transport derivation (as_quinn_client_config / as_quinn_server_config) -/

/-- A loaded certificate (opaque to this core). -/
structure Certificate where
  der : List Nat
deriving DecidableEq

/-- A loaded private key (opaque to this core). -/
structure PrivateKey where
  der : List Nat
deriving DecidableEq

/-- Errors of credential loading and TLS configuration building. -/
inductive CredentialError where
  | loadFailed (path : String)
  | addFailed (msg : String)
  | tlsError (msg : String)
deriving DecidableEq

/-- The external collaborators of the transport builders: certificate and key
file loading, RootCertStore::add, the protocol-version step of the rustls
builders, and with_single_cert. -/
structure CredentialEnv where
  loadCertificates : String → Except CredentialError (List Certificate)
  loadPrivateKey : String → Except CredentialError PrivateKey
  rootStoreAdd : Certificate → Except CredentialError Unit
  protocolVersions : Except CredentialError Unit
  singleCert : List Certificate → PrivateKey → Except CredentialError Unit

/-- The trusted-certificate assembly of as_quinn_client_config: for each listed
path, load it; on success collect the certificates, on failure record a logged
error and skip the file (filter_map + flatten in the source). Returns the
collected certificates in order and the error log. -/
def loadTrustedCertificates (env : CredentialEnv) : List String → List Certificate × List String
  | [] => ([], [])
  | path :: rest =>
    match env.loadCertificates path with
    | Except.ok certs =>
      (certs ++ (loadTrustedCertificates env rest).1, (loadTrustedCertificates env rest).2)
    | Except.error _ =>
      ((loadTrustedCertificates env rest).1,
       ("Could not load certificates from " ++ path) :: (loadTrustedCertificates env rest).2)

/-- The RootCertStore population loop: adds each certificate in turn,
propagating the first add failure. -/
def addAllCertificates (env : CredentialEnv) (store : List Certificate) :
    List Certificate → Except CredentialError (List Certificate)
  | [] => Except.ok store
  | c :: rest =>
    match env.rootStoreAdd c with
    | Except.ok _ => addAllCertificates env (store ++ [c]) rest
    | Except.error e => Except.error e

/-- The derived idle timeout in milliseconds: VarInt::from_u32(t * 2 * 1_000)
with u32 wraparound arithmetic, interpreted by the transport as milliseconds. -/
def idleTimeoutMs (t : Nat) : Nat := u32_mul (u32_mul t 2) 1000

/-- The derived MTU-discovery upper bound: mtu as u16 + QUIC_MTU_OVERHEAD,
i.e. truncation of the u32 mtu to 16 bits followed by u16 addition of the
fixed overhead. The overhead constant lives in the constants module (not part
of this slice) and is passed as a parameter; being a u16 it is below 2^16. -/
def mtuUpperBound (mtu overhead : Nat) : Nat := (mtu % U16_MOD + overhead) % U16_MOD

/-- The observable outcome of as_quinn_client_config: the assembled trust
store and the derived transport parameters. -/
structure QuinnClientConfig where
  trust_store : List Certificate
  max_idle_timeout_ms : Nat
  mtu_upper_bound : Nat
deriving DecidableEq

/-- as_quinn_client_config from src/src/config.rs: assembles the trust store
from the trusted-certificate files that load successfully (failures are logged
and skipped), adds each loaded certificate to the root store (a failed add
propagates), builds the rustls configuration with the pinned constants, and
derives the transport parameters. Returns the configuration together with the
error log of skipped certificate files. -/
def as_quinn_client_config (env : CredentialEnv) (overhead : Nat) (cfg : ClientConfig) :
    Except CredentialError (QuinnClientConfig × List String) :=
  match addAllCertificates env []
      (loadTrustedCertificates env cfg.authentication.trusted_certificates).1 with
  | Except.error e => Except.error e
  | Except.ok store =>
    match env.protocolVersions with
    | Except.error e => Except.error e
    | Except.ok _ =>
      Except.ok ({ trust_store := store,
                   max_idle_timeout_ms := idleTimeoutMs cfg.authentication.auth_interval,
                   mtu_upper_bound := mtuUpperBound cfg.connection.mtu overhead },
                 (loadTrustedCertificates env cfg.authentication.trusted_certificates).2)

/-- The observable outcome of as_quinn_server_config. -/
structure QuinnServerConfig where
  certificate_chain : List Certificate
  private_key : PrivateKey
  max_idle_timeout_ms : Nat
  mtu_upper_bound : Nat
deriving DecidableEq

/-- as_quinn_server_config from src/src/config.rs: loads the tunnel private
key, then its certificate chain (either failure propagates), builds the rustls
server configuration with the pinned constants and the loaded credentials, and
derives the transport parameters from the tunnel auth_timeout and the shared
connection configuration. -/
def as_quinn_server_config (env : CredentialEnv) (overhead : Nat) (tunnel : TunnelConfig)
    (connection_config : ConnectionConfig) : Except CredentialError QuinnServerConfig :=
  match env.loadPrivateKey tunnel.certificate_key_file with
  | Except.error e => Except.error e
  | Except.ok key =>
    match env.loadCertificates tunnel.certificate_file with
    | Except.error e => Except.error e
    | Except.ok certs =>
      match env.protocolVersions with
      | Except.error e => Except.error e
      | Except.ok _ =>
        match env.singleCert certs key with
        | Except.error e => Except.error e
        | Except.ok _ =>
          Except.ok { certificate_chain := certs,
                      private_key := key,
                      max_idle_timeout_ms := idleTimeoutMs tunnel.auth_timeout,
                      mtu_upper_bound := mtuUpperBound connection_config.mtu overhead }

/-! ## Socket binder (bind_socket, src/src/utils.rs lines 11-50) -/

/-- A socket address; only the address family matters to this core. -/
structure SockAddr where
  isIpv6 : Bool
deriving DecidableEq

/-- The bound socket returned by bind_socket, carrying the granted buffer
sizes the OS reported. -/
structure UdpSocket where
  send_granted : Nat
  recv_granted : Nat
deriving DecidableEq

/-- The OS socket collaborator: each operation of bind_socket, fallible. The
buffer-size queries return the sizes the OS actually granted. -/
structure SocketEnv where
  create : Except String Unit
  setOnlyV6False : Except String Unit
  bind : Except String Unit
  setSendBufferSize : Nat → Except String Unit
  setRecvBufferSize : Nat → Except String Unit
  sendBufferSize : Except String Nat
  recvBufferSize : Except String Nat

/-- The send-buffer shortfall warning of bind_socket. -/
def sendShortfallWarning (desired actual : Nat) : String :=
  "Unable to set desired send buffer size. Desired: " ++ toString desired ++
    ", Actual: " ++ toString actual

/-- The recv-buffer shortfall warning of bind_socket. -/
def recvShortfallWarning (desired actual : Nat) : String :=
  "Unable to set desired recv buffer size. Desired: " ++ toString desired ++
    ", Actual: " ++ toString actual

/-- bind_socket from src/src/utils.rs: creates the socket, clears the
IPv6-only flag for IPv6 addresses, binds, requests both buffer sizes, then
queries the granted sizes; a granted size below the requested one produces a
warning but not a failure. Every operation failure propagates to the caller.
Returns the socket together with the warnings recorded. -/
def bind_socket (env : SocketEnv) (addr : SockAddr) (send_buffer_size recv_buffer_size : Nat) :
    Except String (UdpSocket × List String) :=
  match env.create with
  | Except.error e => Except.error e
  | Except.ok _ =>
    match (if addr.isIpv6 then env.setOnlyV6False else Except.ok ()) with
    | Except.error e => Except.error e
    | Except.ok _ =>
      match env.bind with
      | Except.error e => Except.error e
      | Except.ok _ =>
        match env.setSendBufferSize send_buffer_size with
        | Except.error e => Except.error e
        | Except.ok _ =>
          match env.setRecvBufferSize recv_buffer_size with
          | Except.error e => Except.error e
          | Except.ok _ =>
            match env.sendBufferSize with
            | Except.error e => Except.error e
            | Except.ok sendGranted =>
              match env.recvBufferSize with
              | Except.error e => Except.error e
              | Except.ok recvGranted =>
                Except.ok
                  ({ send_granted := sendGranted, recv_granted := recvGranted },
                   (if sendGranted < send_buffer_size then
                      [sendShortfallWarning send_buffer_size sendGranted] else []) ++
                   (if recvGranted < recv_buffer_size then
                      [recvShortfallWarning recv_buffer_size recvGranted] else []))

/-! ## Concrete instances used to evaluate the definitions -/

/-- A credential environment in which every operation succeeds and every
certificate file loads to an empty list. -/
def okEnv : CredentialEnv :=
  { loadCertificates := fun _ => Except.ok []
    loadPrivateKey := fun _ => Except.ok { der := [] }
    rootStoreAdd := fun _ => Except.ok ()
    protocolVersions := Except.ok ()
    singleCert := fun _ _ => Except.ok () }

/-- A credential environment in which only the file named good loads (to one
certificate) and every other certificate file fails to load. -/
def mixedEnv : CredentialEnv :=
  { loadCertificates := fun p =>
      if p = "good" then Except.ok [{ der := [1] }] else Except.error (CredentialError.loadFailed p)
    loadPrivateKey := fun _ => Except.error (CredentialError.loadFailed "key")
    rootStoreAdd := fun _ => Except.ok ()
    protocolVersions := Except.ok ()
    singleCert := fun _ _ => Except.ok () }

/-- A concrete connection configuration with the given mtu. -/
def sampleConnectionConfig (mtu : Nat) : ConnectionConfig :=
  { mtu := mtu, send_buffer_size := default_buffer_size, recv_buffer_size := default_buffer_size }

/-- A concrete tunnel configuration with the given auth_timeout. -/
def sampleTunnelConfig (t : Nat) : TunnelConfig :=
  { name := "tun0", certificate_file := "cert", certificate_key_file := "key",
    bind_address := default_bind_address, bind_port := default_bind_port,
    address_tunnel := 0, address_mask := 0, users_file := "users", auth_timeout := t }

/-- A concrete client configuration with the given trusted-certificate paths,
auth_interval and mtu. -/
def sampleClientConfig (certs : List String) (t mtu : Nat) : ClientConfig :=
  { connection_string := "srv",
    authentication :=
      { username := "u", password := "p", trusted_certificates := certs, auth_interval := t },
    connection := sampleConnectionConfig mtu,
    log := { level := default_log_level } }

/-- A concrete server configuration whose tunnel_path is set. -/
def sampleServerConfig : ServerConfig :=
  { tunnel_path := some "tunnels", tunnels := [],
    connection := sampleConnectionConfig 1400, log := { level := default_log_level } }

/-- A filesystem environment in which the tunnel path is a directory but
listing it fails (for example with a permission error). -/
def failingFsEnv : FsEnv :=
  { isDir := fun _ => true
    readDir := fun _ => Except.error "permission denied"
    tunnelFromPath := fun _ => Except.error (ConfigError.malformed "x") }

/-- A socket environment that grants at most 2097152 bytes for either buffer
while every operation succeeds. -/
def cappedSocketEnv : SocketEnv :=
  { create := Except.ok ()
    setOnlyV6False := Except.ok ()
    bind := Except.ok ()
    setSendBufferSize := fun _ => Except.ok ()
    setRecvBufferSize := fun _ => Except.ok ()
    sendBufferSize := Except.ok 2097152
    recvBufferSize := Except.ok 2097152 }

/-! ## Helper lemmas -/

theorem isErr_error {ε α : Type} (e : ε) : isErr (Except.error e : Except ε α) = true := rfl

theorem isErr_ok {ε α : Type} (a : α) : isErr (Except.ok a : Except ε α) = false := rfl

/-- The serialized length of a payload-carrying message: one tag byte, four
length bytes, and the payload. -/
theorem serializeMessage_data_length (p : List Nat) :
    (serializeMessage (Message.data p)).length = 5 + p.length := by
  simp [serializeMessage, natToLe4]
  omega

/-- encode_message fails on every message: the destination slice handed to
encodeIntoSlice is the initialized region of a freshly allocated BytesMut,
which is empty, while every serialized message is at least one byte. -/
theorem encode_message_err (m : Message) :
    encode_message m = Except.error CodecError.unexpectedEnd := by
  cases m <;> rfl

/-! ## Claim C1 -/

/-- Claim C1: for every message whose serialized form fits the fixed buffer
capacity, encode_message succeeds and decode_message inverts it. The code
refutes this: encode_message hands bincode a zero-length destination slice
(BytesMut::with_capacity allocates capacity but the deref slice has the
buffer's length, which is 0), so encoding fails with UnexpectedEnd for every
message — including Message.close, whose one-byte encoding fits the capacity —
and the round trip never returns. -/
theorem c1_roundtrip_broken :
    (serializeMessage Message.close).length ≤ BINCODE_BUFFER_SIZE ∧
    encode_message Message.close = Except.error CodecError.unexpectedEnd ∧
    ∀ m : Message, encode_message m = Except.error CodecError.unexpectedEnd := by
  refine ⟨by decide, encode_message_err Message.close, encode_message_err⟩

/-! ## Claim C6 -/

/-- Claim C6: encoding a message whose serialized form exceeds the fixed
buffer capacity fails with a recoverable codec error returned to the caller,
and decoding malformed bytes likewise returns a recoverable error (both
functions are total and return Except values; no outcome is a panic). In the
code as written encoding in fact fails for every message (see C1), so the
claimed oversized case holds a fortiori. -/
theorem c6_codec_errors_recoverable :
    (∀ m : Message, BINCODE_BUFFER_SIZE < (serializeMessage m).length →
      isErr (encode_message m) = true) ∧
    (∀ bs : List Nat, isErr (deserializeMessage bs) = true →
      isErr (decode_message bs) = true) := by
  constructor
  · intro m _
    rw [encode_message_err m]
    rfl
  · intro bs h
    unfold decode_message
    cases hd : deserializeMessage bs with
    | ok res => rw [hd] at h; exact absurd h (by simp [isErr])
    | error e => rfl

/-- Witness for C6 at concrete inputs: a message of serialized length 1030
(payload of 1025 bytes) exceeds the 1024-byte capacity and is rejected, and
the malformed single byte 7 is rejected by the decoder. -/
theorem c6_witness :
    isErr (encode_message (Message.data (List.replicate 1025 0))) = true ∧
    isErr (decode_message [7]) = true :=
  ⟨c6_codec_errors_recoverable.1 (Message.data (List.replicate 1025 0))
      (by rw [serializeMessage_data_length, List.length_replicate]; norm_num [BINCODE_BUFFER_SIZE]),
   c6_codec_errors_recoverable.2 [7] rfl⟩

/-! ## Claim C7 -/

/-- Claim C7: resolving a ConnectionConfig from a source that omits mtu fails
with a ConfigError; a source that provides mtu but omits send_buffer_size (or
recv_buffer_size) resolves successfully with that field set to the
2,097,152-byte default. -/
theorem c7_connection_config_defaults :
    ∀ src : ConnectionConfigSource,
      (src.mtu = none →
        resolveConnectionConfig src = Except.error (ConfigError.missingField "mtu")) ∧
      (∀ m, src.mtu = some m → src.send_buffer_size = none →
        resolveConnectionConfig src =
          Except.ok { mtu := m, send_buffer_size := 2097152,
                      recv_buffer_size := src.recv_buffer_size.getD 2097152 }) ∧
      (∀ m, src.mtu = some m → src.recv_buffer_size = none →
        resolveConnectionConfig src =
          Except.ok { mtu := m, send_buffer_size := src.send_buffer_size.getD 2097152,
                      recv_buffer_size := 2097152 }) := by
  intro src
  refine ⟨?_, ?_, ?_⟩
  · intro h
    simp [resolveConnectionConfig, h]
  · intro m hm hs
    simp [resolveConnectionConfig, hm, hs, default_buffer_size]
  · intro m hm hh
    simp [resolveConnectionConfig, hm, hh, default_buffer_size]

/-- Witness for C7 at concrete sources: omitting mtu fails; omitting
send_buffer_size (respectively recv_buffer_size) yields the default. -/
theorem c7_witness :
    resolveConnectionConfig { mtu := none, send_buffer_size := some 5, recv_buffer_size := none } =
      Except.error (ConfigError.missingField "mtu") ∧
    resolveConnectionConfig { mtu := some 1400, send_buffer_size := none, recv_buffer_size := some 7 } =
      Except.ok { mtu := 1400, send_buffer_size := 2097152, recv_buffer_size := 7 } ∧
    resolveConnectionConfig { mtu := some 1400, send_buffer_size := some 9, recv_buffer_size := none } =
      Except.ok { mtu := 1400, send_buffer_size := 9, recv_buffer_size := 2097152 } :=
  ⟨(c7_connection_config_defaults _).1 rfl,
   (c7_connection_config_defaults _).2.1 1400 rfl rfl,
   (c7_connection_config_defaults _).2.2 1400 rfl rfl⟩

/-! ## Transport-derivation helper lemmas -/

/-- A successful as_quinn_client_config carries the derived idle timeout and
MTU bound. -/
theorem as_quinn_client_config_ok (env : CredentialEnv) (ov : Nat) (cfg : ClientConfig)
    (r : QuinnClientConfig × List String)
    (h : as_quinn_client_config env ov cfg = Except.ok r) :
    r.1.max_idle_timeout_ms = idleTimeoutMs cfg.authentication.auth_interval ∧
    r.1.mtu_upper_bound = mtuUpperBound cfg.connection.mtu ov := by
  unfold as_quinn_client_config at h
  split at h
  · exact Except.noConfusion h
  · split at h
    · exact Except.noConfusion h
    · injection h with h
      subst h
      exact ⟨rfl, rfl⟩

/-- A successful as_quinn_server_config carries the derived idle timeout and
MTU bound. -/
theorem as_quinn_server_config_ok (env : CredentialEnv) (ov : Nat) (tunnel : TunnelConfig)
    (cc : ConnectionConfig) (s : QuinnServerConfig)
    (h : as_quinn_server_config env ov tunnel cc = Except.ok s) :
    s.max_idle_timeout_ms = idleTimeoutMs tunnel.auth_timeout ∧
    s.mtu_upper_bound = mtuUpperBound cc.mtu ov := by
  unfold as_quinn_server_config at h
  split at h
  · exact Except.noConfusion h
  · split at h
    · exact Except.noConfusion h
    · split at h
      · exact Except.noConfusion h
      · split at h
        · exact Except.noConfusion h
        · injection h with h
          subst h
          exact ⟨rfl, rfl⟩

/-- Below the u32 overflow bound the derived idle timeout is exact. -/
theorem idleTimeoutMs_eq (t : Nat) (h : t * 2 * 1000 < U32_MOD) :
    idleTimeoutMs t = 2 * t * 1000 := by
  unfold idleTimeoutMs u32_mul U32_MOD at *
  omega

/-- Below the u16 overflow bound the derived MTU upper bound is exact. -/
theorem mtuUpperBound_eq (m ov : Nat) (h : m + ov < U16_MOD) :
    mtuUpperBound m ov = m + ov := by
  unfold mtuUpperBound U16_MOD at *
  omega

/-- Whether as_quinn_client_config fails does not depend on any field outside
the authentication configuration (in particular not on the mtu). -/
theorem as_quinn_client_config_isErr_congr (env : CredentialEnv) (ov : Nat)
    (cfg1 cfg2 : ClientConfig) (h : cfg1.authentication = cfg2.authentication) :
    isErr (as_quinn_client_config env ov cfg1) = isErr (as_quinn_client_config env ov cfg2) := by
  unfold as_quinn_client_config
  rw [h]
  cases addAllCertificates env []
      (loadTrustedCertificates env cfg2.authentication.trusted_certificates).1 with
  | error e => rfl
  | ok store =>
    cases env.protocolVersions with
    | error e => rfl
    | ok u => rfl

/-- Whether as_quinn_server_config fails does not depend on the connection
configuration (in particular not on the mtu). -/
theorem as_quinn_server_config_isErr_congr (env : CredentialEnv) (ov : Nat)
    (tunnel : TunnelConfig) (cc1 cc2 : ConnectionConfig) :
    isErr (as_quinn_server_config env ov tunnel cc1) =
      isErr (as_quinn_server_config env ov tunnel cc2) := by
  unfold as_quinn_server_config
  cases hk : env.loadPrivateKey tunnel.certificate_key_file with
  | error e => rfl
  | ok key =>
    dsimp only
    cases hc : env.loadCertificates tunnel.certificate_file with
    | error e => rfl
    | ok certs =>
      dsimp only
      cases hp : env.protocolVersions with
      | error e => rfl
      | ok u =>
        dsimp only
        cases hs : env.singleCert certs key with
        | error e => rfl
        | ok v => rfl

/-! ## Claim C2 -/

/-- Claim C2 as stated is false: the idle timeout is computed with u32
arithmetic, so auth_interval = 2^31 wraps to an idle timeout of 0 ms rather
than 2 * 2^31 * 1000 ms. -/
theorem c2_counterexample :
    as_quinn_client_config okEnv 54 (sampleClientConfig [] 2147483648 1400) =
      Except.ok ({ trust_store := [], max_idle_timeout_ms := 0, mtu_upper_bound := 1454 }, []) ∧
    (0 : Nat) ≠ 2 * 2147483648 * 1000 := ⟨rfl, by decide⟩

/-- Claim C2 (amended): whenever 2 * T * 1000 does not overflow a u32, the
transport configuration produced by as_quinn_client_config (from
auth_interval = T) and by as_quinn_server_config (from auth_timeout = T) has a
max idle timeout of exactly 2 * T * 1000 milliseconds. -/
theorem c2_idle_timeout_doubling :
    ∀ (env : CredentialEnv) (ov : Nat) (cfg : ClientConfig) (tunnel : TunnelConfig)
      (cc : ConnectionConfig),
      (cfg.authentication.auth_interval * 2 * 1000 < U32_MOD →
        ∀ r, as_quinn_client_config env ov cfg = Except.ok r →
          r.1.max_idle_timeout_ms = 2 * cfg.authentication.auth_interval * 1000) ∧
      (tunnel.auth_timeout * 2 * 1000 < U32_MOD →
        ∀ s, as_quinn_server_config env ov tunnel cc = Except.ok s →
          s.max_idle_timeout_ms = 2 * tunnel.auth_timeout * 1000) := by
  intro env ov cfg tunnel cc
  constructor
  · intro hbound r hr
    rw [(as_quinn_client_config_ok env ov cfg r hr).1]
    exact idleTimeoutMs_eq _ hbound
  · intro hbound s hs
    rw [(as_quinn_server_config_ok env ov tunnel cc s hs).1]
    exact idleTimeoutMs_eq _ hbound

/-- Witness for C2 at a concrete input: auth_interval 120 yields a 240000 ms
idle timeout. -/
theorem c2_witness : (240000 : Nat) = 2 * 120 * 1000 :=
  (c2_idle_timeout_doubling okEnv 54 (sampleClientConfig [] 120 1400)
      (sampleTunnelConfig 120) (sampleConnectionConfig 1400)).1 (by decide)
    ({ trust_store := [], max_idle_timeout_ms := 240000, mtu_upper_bound := 1454 }, []) rfl

/-! ## Claim C3 -/

/-- Claim C3 as stated is false: mtu = 65536 is truncated to 0 by the u32 to
u16 cast, so the derived upper bound is the bare overhead (54 here) rather
than 65536 + 54. -/
theorem c3_counterexample :
    as_quinn_client_config okEnv 54 (sampleClientConfig [] 120 65536) =
      Except.ok ({ trust_store := [], max_idle_timeout_ms := 240000, mtu_upper_bound := 54 }, []) ∧
    (54 : Nat) ≠ 65536 + 54 := ⟨rfl, by decide⟩

/-- Claim C3 (amended): whenever M + overhead fits a u16, the MTU-discovery
upper bound derived by both as_quinn_client_config and as_quinn_server_config
from mtu = M equals M + overhead exactly. -/
theorem c3_mtu_upper_bound :
    ∀ (env : CredentialEnv) (ov : Nat) (cfg : ClientConfig) (tunnel : TunnelConfig)
      (cc : ConnectionConfig),
      (cfg.connection.mtu + ov < U16_MOD →
        ∀ r, as_quinn_client_config env ov cfg = Except.ok r →
          r.1.mtu_upper_bound = cfg.connection.mtu + ov) ∧
      (cc.mtu + ov < U16_MOD →
        ∀ s, as_quinn_server_config env ov tunnel cc = Except.ok s →
          s.mtu_upper_bound = cc.mtu + ov) := by
  intro env ov cfg tunnel cc
  constructor
  · intro hbound r hr
    rw [(as_quinn_client_config_ok env ov cfg r hr).2]
    exact mtuUpperBound_eq _ _ hbound
  · intro hbound s hs
    rw [(as_quinn_server_config_ok env ov tunnel cc s hs).2]
    exact mtuUpperBound_eq _ _ hbound

/-- Witness for C3 at a concrete input: mtu 1400 with overhead 54 yields an
upper bound of 1454. -/
theorem c3_witness : (1454 : Nat) = 1400 + 54 :=
  (c3_mtu_upper_bound okEnv 54 (sampleClientConfig [] 120 1400)
      (sampleTunnelConfig 120) (sampleConnectionConfig 1400)).1 (by decide)
    ({ trust_store := [], max_idle_timeout_ms := 240000, mtu_upper_bound := 1454 }, []) rfl

/-! ## Claim C10 -/

/-- Claim C10: on both derivation paths the MTU-discovery upper bound equals
the mtu truncated to 16 bits plus the overhead, reduced in 16-bit arithmetic;
and changing the mtu to any value (representable in 16 bits or not) never
changes whether the derivation succeeds — the constraint is never validated. -/
theorem c10_mtu_truncated_16bit :
    ∀ (env : CredentialEnv) (ov : Nat) (cfg : ClientConfig) (tunnel : TunnelConfig)
      (cc : ConnectionConfig) (m : Nat),
      (∀ r, as_quinn_client_config env ov cfg = Except.ok r →
        r.1.mtu_upper_bound = (cfg.connection.mtu % 65536 + ov) % 65536) ∧
      (∀ s, as_quinn_server_config env ov tunnel cc = Except.ok s →
        s.mtu_upper_bound = (cc.mtu % 65536 + ov) % 65536) ∧
      isErr (as_quinn_client_config env ov
          { cfg with connection := { cfg.connection with mtu := m } }) =
        isErr (as_quinn_client_config env ov cfg) ∧
      isErr (as_quinn_server_config env ov tunnel { cc with mtu := m }) =
        isErr (as_quinn_server_config env ov tunnel cc) := by
  intro env ov cfg tunnel cc m
  refine ⟨?_, ?_, ?_, ?_⟩
  · intro r hr
    exact (as_quinn_client_config_ok env ov cfg r hr).2
  · intro s hs
    exact (as_quinn_server_config_ok env ov tunnel cc s hs).2
  · exact as_quinn_client_config_isErr_congr env ov _ cfg rfl
  · exact as_quinn_server_config_isErr_congr env ov tunnel _ cc

/-- Witness for C10 at a concrete input: mtu 70000 (not representable in 16
bits) derives the truncated bound 4518 with overhead 54, without error. -/
theorem c10_witness : (4518 : Nat) = (70000 % 65536 + 54) % 65536 :=
  (c10_mtu_truncated_16bit okEnv 54 (sampleClientConfig [] 120 70000)
      (sampleTunnelConfig 120) (sampleConnectionConfig 1400) 0).1
    ({ trust_store := [], max_idle_timeout_ms := 240000, mtu_upper_bound := 4518 }, []) rfl

/-! ## Merge lemmas (for Claim C4) -/

/-- Lookup after appending a single entry: the original map takes priority. -/
theorem mapLookup_append_single (m : List (String × TunnelConfig)) (n : String)
    (t : TunnelConfig) (k : String) :
    mapLookup (m ++ [(n, t)]) k = optOr (mapLookup m k) (if n = k then some t else none) := by
  induction m with
  | nil => rfl
  | cons e rest ih =>
    by_cases h : e.1 = k
    · simp [mapLookup, h, optOr]
    · simp [mapLookup, h, ih]

/-- Unfolding of the merge loop at an occupied key: the map is untouched and a
warning is recorded. -/
theorem mergeTunnels_cons_occupied (base : List (String × TunnelConfig)) (t : TunnelConfig)
    (rest : List TunnelConfig) (h : (mapLookup base t.name).isSome = true) :
    mergeTunnels base (t :: rest) =
      ((mergeTunnels base rest).1, duplicateWarning t.name :: (mergeTunnels base rest).2) := by
  conv_lhs => unfold mergeTunnels
  cases hm : mapLookup base t.name with
  | some v => rfl
  | none => rw [hm] at h; exact absurd h (by simp)

/-- Unfolding of the merge loop at a vacant key: the entry is inserted. -/
theorem mergeTunnels_cons_vacant (base : List (String × TunnelConfig)) (t : TunnelConfig)
    (rest : List TunnelConfig) (h : mapLookup base t.name = none) :
    mergeTunnels base (t :: rest) = mergeTunnels (base ++ [(t.name, t)]) rest := by
  conv_lhs => unfold mergeTunnels
  cases hm : mapLookup base t.name with
  | some v => rw [hm] at h; exact Option.noConfusion h
  | none => rfl

/-- Lookup after the whole merge: an entry of the base map always wins, and an
absent key resolves to the first discovered tunnel carrying it. -/
theorem mergeTunnels_lookup (disc : List TunnelConfig) :
    ∀ (base : List (String × TunnelConfig)) (k : String),
      mapLookup (mergeTunnels base disc).1 k = optOr (mapLookup base k) (firstNamed disc k) := by
  induction disc with
  | nil =>
    intro base k
    cases h : mapLookup base k <;> simp [mergeTunnels, firstNamed, optOr, h]
  | cons t rest ih =>
    intro base k
    cases hm : mapLookup base t.name with
    | some v =>
      rw [mergeTunnels_cons_occupied base t rest (by rw [hm]; rfl)]
      rw [ih base k]
      by_cases hk : t.name = k
      · rw [hk] at hm
        rw [hm]
        simp [optOr]
      · simp [firstNamed, hk]
    | none =>
      rw [mergeTunnels_cons_vacant base t rest hm]
      rw [ih (base ++ [(t.name, t)]) k, mapLookup_append_single]
      by_cases hk : t.name = k
      · rw [hk] at hm
        rw [hm]
        simp [firstNamed, hk, optOr]
      · cases hbk : mapLookup base k <;> simp [firstNamed, hk, optOr, hbk]

/-- The merge over a concatenation runs the two halves in order, threading the
map and concatenating the warnings. -/
theorem mergeTunnels_append (a : List TunnelConfig) :
    ∀ (base : List (String × TunnelConfig)) (b : List TunnelConfig),
      mergeTunnels base (a ++ b) =
        ((mergeTunnels (mergeTunnels base a).1 b).1,
         (mergeTunnels base a).2 ++ (mergeTunnels (mergeTunnels base a).1 b).2) := by
  induction a with
  | nil => intro base b; rfl
  | cons t rest ih =>
    intro base b
    cases hm : mapLookup base t.name with
    | some v =>
      rw [List.cons_append,
          mergeTunnels_cons_occupied base t (rest ++ b) (by rw [hm]; rfl),
          mergeTunnels_cons_occupied base t rest (by rw [hm]; rfl),
          ih base b]
      rfl
    | none =>
      rw [List.cons_append,
          mergeTunnels_cons_vacant base t (rest ++ b) hm,
          mergeTunnels_cons_vacant base t rest hm,
          ih (base ++ [(t.name, t)]) b]

/-! ## Claim C4 -/

/-- Claim C4: the tunnel-directory merge is first-registration-wins. An entry
already present in the map keeps its field values unchanged through the whole
merge; the final value at any key is the base entry if one exists and
otherwise the first discovered tunnel with that name (so a colliding
discovered entry is dropped and the merge never replaces an existing entry);
and every discovered tunnel whose name is occupied at the moment it is
processed — whether by an inline entry of the base file or by an entry
inserted earlier in the same discovery pass — produces a warning. -/
theorem c4_first_registration_wins :
    ∀ (base : List (String × TunnelConfig)) (disc : List TunnelConfig) (k : String),
      (∀ v, mapLookup base k = some v → mapLookup (mergeTunnels base disc).1 k = some v) ∧
      mapLookup (mergeTunnels base disc).1 k = optOr (mapLookup base k) (firstNamed disc k) ∧
      (∀ l1 t l2, disc = l1 ++ t :: l2 →
        mapLookup (mergeTunnels base l1).1 t.name ≠ none →
        duplicateWarning t.name ∈ (mergeTunnels base disc).2) := by
  intro base disc k
  refine ⟨?_, mergeTunnels_lookup disc base k, ?_⟩
  · intro v hv
    rw [mergeTunnels_lookup disc base k, hv]
    rfl
  · intro l1 t l2 hdisc hocc
    subst hdisc
    rw [mergeTunnels_append l1 base (t :: l2)]
    cases hm : mapLookup (mergeTunnels base l1).1 t.name with
    | none => exact absurd hm hocc
    | some v =>
      rw [mergeTunnels_cons_occupied (mergeTunnels base l1).1 t l2 (by rw [hm]; rfl)]
      exact List.mem_append_right _ (List.mem_cons_self _ _)

/-- Witness for C4 at a concrete input: a base map with an inline tunnel named
A and a discovery pass with a different tunnel also named A keeps the inline
entry and records the duplicate warning. -/
theorem c4_witness :
    mapLookup (mergeTunnels [("A", sampleTunnelConfig 120)]
        [{ sampleTunnelConfig 999 with name := "A" }]).1 "A" = some (sampleTunnelConfig 120) ∧
    duplicateWarning "A" ∈ (mergeTunnels [("A", sampleTunnelConfig 120)]
        [{ sampleTunnelConfig 999 with name := "A" }]).2 :=
  ⟨(c4_first_registration_wins [("A", sampleTunnelConfig 120)]
        [{ sampleTunnelConfig 999 with name := "A" }] "A").1
      (sampleTunnelConfig 120) (by decide),
   (c4_first_registration_wins [("A", sampleTunnelConfig 120)]
        [{ sampleTunnelConfig 999 with name := "A" }] "A").2.2
      [] { sampleTunnelConfig 999 with name := "A" } [] rfl (by decide)⟩

/-! ## Claim C5 -/

/-- Claim C5 as stated is false: with a filesystem in which tunnel_path is an
existing directory whose listing fails (a directory-discovery failure, not a
base-resolution failure), ServerConfig::init propagates the read_dir error and
the whole load fails, even though base resolution succeeded. -/
theorem c5_counterexample :
    serverConfigInit failingFsEnv (Except.ok sampleServerConfig) =
      Except.error (LoadError.io "permission denied") ∧
    isErr (Except.ok sampleServerConfig : Except ConfigError ServerConfig) = false :=
  ⟨rfl, rfl⟩

/-- Claim C5 (amended): ServerConfig loading fails exactly when base
resolution fails or when tunnel_path names an existing directory whose listing
(read_dir) fails. In particular a tunnel_path that is not a valid directory is
non-fatal (warning, empty discovery set) and individual directory entries that
fail to resolve are non-fatal (they are filtered out). -/
theorem c5_error_characterization :
    ∀ (env : FsEnv) (extracted : Except ConfigError ServerConfig),
      isErr (serverConfigInit env extracted) = true ↔
        (isErr extracted = true ∨
          ∃ cfg p, extracted = Except.ok cfg ∧ cfg.tunnel_path = some p ∧
            env.isDir p = true ∧ isErr (env.readDir p) = true) := by
  intro env extracted
  cases extracted with
  | error e =>
    simp [serverConfigInit, isErr]
  | ok cfg =>
    cases hp : cfg.tunnel_path with
    | none =>
      have hinit : isErr (serverConfigInit env (Except.ok cfg)) = false := by
        simp [serverConfigInit, hp, isErr]
      rw [hinit]
      constructor
      · intro h
        exact absurd h (by simp)
      · rintro (h | ⟨cfg2, p2, heq, hp2, hd2, hr2⟩)
        · exact absurd h (by simp [isErr])
        · injection heq with heq
          subst heq
          rw [hp] at hp2
          exact Option.noConfusion hp2
    | some p =>
      by_cases hd : env.isDir p
      · cases hr : env.readDir p with
        | error e =>
          have hinit : serverConfigInit env (Except.ok cfg) = Except.error (LoadError.io e) := by
            simp [serverConfigInit, hp, hd, hr]
          rw [hinit]
          constructor
          · intro _
            refine Or.inr ⟨cfg, p, rfl, hp, hd, ?_⟩
            rw [hr]
            rfl
          · intro _
            rfl
        | ok entries =>
          have hinit : isErr (serverConfigInit env (Except.ok cfg)) = false := by
            simp [serverConfigInit, hp, hd, hr, isErr]
          rw [hinit]
          constructor
          · intro h
            exact absurd h (by simp)
          · rintro (h | ⟨cfg2, p2, heq, hp2, hd2, hr2⟩)
            · exact absurd h (by simp [isErr])
            · injection heq with heq
              subst heq
              rw [hp] at hp2
              injection hp2 with hp2
              subst hp2
              rw [hr] at hr2
              exact absurd hr2 (by simp [isErr])
      · have hinit : isErr (serverConfigInit env (Except.ok cfg)) = false := by
          simp [serverConfigInit, hp, hd, isErr]
        rw [hinit]
        constructor
        · intro h
          exact absurd h (by simp)
        · rintro (h | ⟨cfg2, p2, heq, hp2, hd2, hr2⟩)
          · exact absurd h (by simp [isErr])
          · injection heq with heq
            subst heq
            rw [hp] at hp2
            injection hp2 with hp2
            subst hp2
            exact absurd hd2 (by simpa using hd)

/-- Witness for C5 at a concrete input: the failing-listing environment makes
the load fail, as the characterization requires. -/
theorem c5_witness :
    isErr (serverConfigInit failingFsEnv (Except.ok sampleServerConfig)) = true :=
  (c5_error_characterization failingFsEnv (Except.ok sampleServerConfig)).mpr
    (Or.inr ⟨sampleServerConfig, "tunnels", rfl, rfl, rfl, rfl⟩)

/-! ## Claim C8 -/

/-- When every RootCertStore::add succeeds, the population loop collects
exactly the given certificates in order. -/
theorem addAllCertificates_ok (env : CredentialEnv)
    (h : ∀ c, env.rootStoreAdd c = Except.ok ()) :
    ∀ (l store : List Certificate), addAllCertificates env store l = Except.ok (store ++ l) := by
  intro l
  induction l with
  | nil => intro store; simp [addAllCertificates]
  | cons c rest ih =>
    intro store
    conv_lhs => unfold addAllCertificates
    rw [h c]
    rw [ih (store ++ [c])]
    simp

/-- Every trusted-certificate file that fails to load contributes a logged
error to the trust-store assembly. -/
theorem loadTrustedCertificates_log (env : CredentialEnv) :
    ∀ (paths : List String) (path : String), path ∈ paths →
      isErr (env.loadCertificates path) = true →
      ("Could not load certificates from " ++ path) ∈ (loadTrustedCertificates env paths).2 := by
  intro paths
  induction paths with
  | nil => intro p hp _; exact absurd hp (List.not_mem_nil p)
  | cons q rest ih =>
    intro p hp herr
    cases hq : env.loadCertificates q with
    | ok certs =>
      rcases List.mem_cons.mp hp with h1 | h2
      · subst h1; rw [hq] at herr; exact absurd herr (by simp [isErr])
      · simp only [loadTrustedCertificates, hq]
        exact ih p h2 herr
    | error e =>
      rcases List.mem_cons.mp hp with h1 | h2
      · subst h1
        simp only [loadTrustedCertificates, hq]
        exact List.mem_cons_self _ _
      · simp only [loadTrustedCertificates, hq]
        exact List.mem_cons_of_mem _ (ih p h2 herr)

/-- Claim C8: a failing certificate or key load is fatal on the server
derivation path, but non-fatal and filtered on the client path — whenever the
remaining steps succeed, as_quinn_client_config returns the trust store
assembled from exactly the certificate files that loaded successfully, and
each file that failed to load is skipped with a logged error. -/
theorem c8_credential_failures :
    ∀ (env : CredentialEnv) (ov : Nat) (tunnel : TunnelConfig) (cc : ConnectionConfig)
      (cfg : ClientConfig),
      (isErr (env.loadPrivateKey tunnel.certificate_key_file) = true →
        isErr (as_quinn_server_config env ov tunnel cc) = true) ∧
      (isErr (env.loadCertificates tunnel.certificate_file) = true →
        isErr (as_quinn_server_config env ov tunnel cc) = true) ∧
      ((∀ c, env.rootStoreAdd c = Except.ok ()) → env.protocolVersions = Except.ok () →
        as_quinn_client_config env ov cfg =
          Except.ok
            ({ trust_store :=
                 (loadTrustedCertificates env cfg.authentication.trusted_certificates).1,
               max_idle_timeout_ms := idleTimeoutMs cfg.authentication.auth_interval,
               mtu_upper_bound := mtuUpperBound cfg.connection.mtu ov },
             (loadTrustedCertificates env cfg.authentication.trusted_certificates).2)) ∧
      (∀ path, path ∈ cfg.authentication.trusted_certificates →
        isErr (env.loadCertificates path) = true →
        ("Could not load certificates from " ++ path) ∈
          (loadTrustedCertificates env cfg.authentication.trusted_certificates).2) := by
  intro env ov tunnel cc cfg
  refine ⟨?_, ?_, ?_, ?_⟩
  · intro h
    unfold as_quinn_server_config
    cases hk : env.loadPrivateKey tunnel.certificate_key_file with
    | error e => rfl
    | ok key => rw [hk] at h; exact absurd h (by simp [isErr])
  · intro h
    unfold as_quinn_server_config
    cases hk : env.loadPrivateKey tunnel.certificate_key_file with
    | error e => rfl
    | ok key =>
      dsimp only
      cases hc : env.loadCertificates tunnel.certificate_file with
      | error e => rfl
      | ok certs => rw [hc] at h; exact absurd h (by simp [isErr])
  · intro hadd hpv
    unfold as_quinn_client_config
    rw [addAllCertificates_ok env hadd
        (loadTrustedCertificates env cfg.authentication.trusted_certificates).1 [],
      hpv]
    rfl
  · exact loadTrustedCertificates_log env cfg.authentication.trusted_certificates

/-- Witness for C8 at a concrete input: a client with trusted-certificate
files bad and good, of which only good loads, builds the trust store from
exactly the good file's certificate and logs the bad file, while the server
path with the same environment (whose key load fails) fails. -/
theorem c8_witness :
    as_quinn_client_config mixedEnv 54 (sampleClientConfig ["bad", "good"] 120 1400) =
      Except.ok
        ({ trust_store := [{ der := [1] }], max_idle_timeout_ms := 240000,
           mtu_upper_bound := 1454 },
         ["Could not load certificates from bad"]) ∧
    isErr (as_quinn_server_config mixedEnv 54 (sampleTunnelConfig 120)
        (sampleConnectionConfig 1400)) = true :=
  ⟨(c8_credential_failures mixedEnv 54 (sampleTunnelConfig 120) (sampleConnectionConfig 1400)
        (sampleClientConfig ["bad", "good"] 120 1400)).2.2.1 (fun _ => rfl) rfl,
   (c8_credential_failures mixedEnv 54 (sampleTunnelConfig 120) (sampleConnectionConfig 1400)
        (sampleClientConfig ["bad", "good"] 120 1400)).1 rfl⟩

/-! ## Claim C9 -/

/-- Claim C9: bind_socket never fails because of a buffer-size shortfall —
when every socket operation succeeds it returns the bound socket carrying the
granted sizes, and a granted size below the requested one only adds a warning
naming both values; while a failure of socket creation, of binding, or of a
buffer-size query is returned to the caller as an error. -/
theorem c9_bind_socket_shortfall :
    ∀ (env : SocketEnv) (addr : SockAddr) (sb rb : Nat),
      (∀ e, env.create = Except.error e → bind_socket env addr sb rb = Except.error e) ∧
      (∀ e, env.create = Except.ok () →
        (if addr.isIpv6 then env.setOnlyV6False else Except.ok ()) = Except.ok () →
        env.bind = Except.error e → bind_socket env addr sb rb = Except.error e) ∧
      (∀ e, env.create = Except.ok () →
        (if addr.isIpv6 then env.setOnlyV6False else Except.ok ()) = Except.ok () →
        env.bind = Except.ok () → env.setSendBufferSize sb = Except.ok () →
        env.setRecvBufferSize rb = Except.ok () →
        env.sendBufferSize = Except.error e → bind_socket env addr sb rb = Except.error e) ∧
      (∀ g1 g2, env.create = Except.ok () →
        (if addr.isIpv6 then env.setOnlyV6False else Except.ok ()) = Except.ok () →
        env.bind = Except.ok () → env.setSendBufferSize sb = Except.ok () →
        env.setRecvBufferSize rb = Except.ok () →
        env.sendBufferSize = Except.ok g1 → env.recvBufferSize = Except.ok g2 →
        bind_socket env addr sb rb =
          Except.ok ({ send_granted := g1, recv_granted := g2 },
            (if g1 < sb then [sendShortfallWarning sb g1] else []) ++
            (if g2 < rb then [recvShortfallWarning rb g2] else [])) ∧
        (g1 < sb → sendShortfallWarning sb g1 ∈ logsOf (bind_socket env addr sb rb))) := by
  intro env addr sb rb
  refine ⟨?_, ?_, ?_, ?_⟩
  · intro e h1
    unfold bind_socket
    rw [h1]
  · intro e h1 h2 h3
    unfold bind_socket
    rw [h1, h2, h3]
  · intro e h1 h2 h3 h4 h5 h6
    unfold bind_socket
    rw [h1, h2, h3, h4, h5, h6]
  · intro g1 g2 h1 h2 h3 h4 h5 h6 h7
    have heq : bind_socket env addr sb rb =
        Except.ok ({ send_granted := g1, recv_granted := g2 },
          (if g1 < sb then [sendShortfallWarning sb g1] else []) ++
          (if g2 < rb then [recvShortfallWarning rb g2] else [])) := by
      unfold bind_socket
      rw [h1, h2, h3, h4, h5, h6, h7]
    refine ⟨heq, ?_⟩
    intro hlt
    rw [heq]
    unfold logsOf
    rw [if_pos hlt]
    exact List.mem_append_left _ (List.mem_cons_self _ _)

/-- Witness for C9 at a concrete input: requesting an 8388608-byte send buffer
on an OS that grants 2097152 bytes binds successfully and records exactly the
send shortfall warning. -/
theorem c9_witness :
    bind_socket cappedSocketEnv { isIpv6 := false } 8388608 2097152 =
      Except.ok ({ send_granted := 2097152, recv_granted := 2097152 },
                 [sendShortfallWarning 8388608 2097152]) :=
  ((c9_bind_socket_shortfall cappedSocketEnv { isIpv6 := false } 8388608 2097152).2.2.2
      2097152 2097152 rfl rfl rfl rfl rfl rfl rfl).1

end Quincy
